import Mathlib

/-!
Shallow embedding of the handson-pinecone repository.

Two source files are embedded:
* `src/quick-start.py` — a provisioning script that lists the account's
  indexes and creates the index "quickstart" (dimension 2, metric cosine,
  serverless spec aws/us-east-1) only when no listed index has that name.
* `src/main.py` — a FastAPI service with three handlers: `status` (lists
  indexes and maps each to name/host/dimension), `upsert_vectors` (writes a
  hardcoded three-record payload in one batched call), and `search`
  (forwards the query vector to the store with top_k 5 and
  include_metadata true, and maps each returned match to
  id/score/metadata in the order the store returned them).

The external Pinecone client is modelled by explicit function arguments
returning `Except String _` (a raised exception carries its message as the
`String`). Handlers that call the store also return the list of calls they
issued, so that "exactly one batched write" and "delegates with top_k 5"
are provable statements. Python floats are modelled as `ℚ`: this layer does
no arithmetic on vector components or scores, it only passes them through.
-/

namespace Pinecone

/-- Deployment spec passed to create_index (quick-start.py line 20). -/
structure ServerlessSpec where
  cloud : String
  region : String
deriving DecidableEq

/-- A remote index record as returned by the store's list_indexes. The
store-side record carries more fields (metric as well) than the service's
status output exposes. -/
structure StoreIndex where
  name : String
  host : String
  dimension : Nat
  metric : String
deriving DecidableEq

/-- One create_index request issued by the provisioner
(quick-start.py lines 16-21). -/
structure CreateRequest where
  name : String
  dimension : Nat
  metric : String
  spec : ServerlessSpec
deriving DecidableEq

/-- quick-start.py line 8: the target index name. -/
def index_name : String := "quickstart"

/-- quick-start.py line 18: dimension passed to create_index. -/
def quickstartDimension : Nat := 2

/-- quick-start.py line 19: metric passed to create_index. -/
def quickstartMetric : String := "cosine"

/-- quick-start.py line 20: ServerlessSpec(cloud="aws", region="us-east-1"). -/
def quickstartSpec : ServerlessSpec := ⟨"aws", "us-east-1"⟩

/-- quick-start.py lines 15-21: given the result of list_indexes, issue a
create_index request exactly when no listed index has the requested name.
Returns the list of creation requests issued. -/
def createIfAbsent (existing_indexes : List StoreIndex) (name : String)
    (dim : Nat) (metric : String) (spec : ServerlessSpec) : List CreateRequest :=
  if name ∈ existing_indexes.map (fun index => index.name) then []
  else [⟨name, dim, metric, spec⟩]

/-- Effect of one create_index request on the remote store: the store
records a new index with the requested configuration (the host is chosen by
the store). -/
def applyCreate (store : List StoreIndex) (r : CreateRequest) (host : String) :
    List StoreIndex :=
  store ++ [⟨r.name, host, r.dimension, r.metric⟩]

/-- One run of the provisioning script against a remote store state: list
the store's indexes, run the create-if-absent block, apply the issued
creation requests to the store. Returns the new store state and the
requests issued. -/
def runProvisioner (store : List StoreIndex) (host : String) (name : String)
    (dim : Nat) (metric : String) (spec : ServerlessSpec) :
    List StoreIndex × List CreateRequest :=
  let reqs := createIfAbsent store name dim metric spec
  (reqs.foldl (fun st r => applyCreate st r host) store, reqs)

/-- main.py: fastapi.HTTPException(status_code, detail). -/
structure HTTPException where
  status_code : Nat
  detail : String
deriving DecidableEq

/-- One element of the status handler's "indexes" list (main.py line 140). -/
structure IndexOut where
  name : String
  host : String
  dimension : Nat
deriving DecidableEq

/-- The status handler's success body (main.py lines 138-143). -/
structure StatusResponse where
  indexes : List IndexOut
deriving DecidableEq

/-- main.py lines 134-145: the /status handler. The argument is the result
of pc.list_indexes(): a raised exception is `.error` carrying str(e). -/
def status (listResult : Except String (List StoreIndex)) :
    Except HTTPException StatusResponse :=
  match listResult with
  | .ok indexes =>
      .ok ⟨indexes.map (fun idx => ⟨idx.name, idx.host, idx.dimension⟩)⟩
  | .error e => .error ⟨500, e⟩

/-- A vector record submitted to the store's upsert (main.py lines 152-168). -/
structure VectorRecord where
  id : String
  values : List ℚ
  metadata : List (String × String)
deriving DecidableEq

/-- main.py lines 152-168: the hardcoded three-element payload built inside
the upsert handler on every call. -/
def upsertPayload : List VectorRecord :=
  [⟨"vec1", [0.1, 0.2], [("description", "First vector")]⟩,
   ⟨"vec2", [0.2, 0.3], [("description", "Second vector")]⟩,
   ⟨"vec3", [0.1, 0.15], [("description", "Third vector")]⟩]

/-- The upsert handler's success body (main.py line 171). -/
structure UpsertResponse where
  message : String
  count : Nat
deriving DecidableEq

/-- main.py lines 149-173: the /upsert handler. `body` is the caller's
request body: the Python handler takes no parameter, so FastAPI ignores the
body, hence `body` may have any type and is unused. `upsertFn` is
index.upsert; the handler returns the list of upsert calls it issued
together with the HTTP-level outcome. -/
def upsert_vectors {α : Type} (_body : α)
    (upsertFn : List VectorRecord → Except String Unit) :
    List (List VectorRecord) × Except HTTPException UpsertResponse :=
  match upsertFn upsertPayload with
  | .ok _ => ([upsertPayload],
      .ok ⟨"Vectors upserted successfully", upsertPayload.length⟩)
  | .error e => ([upsertPayload], .error ⟨500, e⟩)

/-- main.py lines 35-38: the request schema of /search. -/
structure SearchQuery where
  query_vector : List ℚ
deriving DecidableEq

/-- A match as returned by the store's query. The store-side match carries
more fields (the stored values) than the handler exposes. -/
structure QueryMatch where
  id : String
  score : ℚ
  values : List ℚ
  metadata : List (String × String)
deriving DecidableEq

/-- The store's query result (results.matches in main.py line 206). -/
structure QueryResponse where
  «matches» : List QueryMatch
deriving DecidableEq

/-- One element of the search handler's "matches" list (main.py line 205). -/
structure SearchMatch where
  id : String
  score : ℚ
  metadata : List (String × String)
deriving DecidableEq

/-- The search handler's success body (main.py lines 203-208). -/
structure SearchResponse where
  «matches» : List SearchMatch
deriving DecidableEq

/-- main.py line 205: the per-match mapping to id/score/metadata. -/
def toSearchMatch (m : QueryMatch) : SearchMatch := ⟨m.id, m.score, m.metadata⟩

/-- One call to index.query as issued by the search handler
(main.py line 202). -/
structure QueryCall where
  vector : List ℚ
  top_k : Nat
  include_metadata : Bool
deriving DecidableEq

/-- main.py lines 200-210: the /search handler. `queryFn` is index.query
taking the vector, top_k and include_metadata; the handler returns the list
of query calls it issued together with the HTTP-level outcome. -/
def search (query : SearchQuery)
    (queryFn : List ℚ → Nat → Bool → Except String QueryResponse) :
    List QueryCall × Except HTTPException SearchResponse :=
  match queryFn query.query_vector 5 true with
  | .ok results =>
      ([⟨query.query_vector, 5, true⟩], .ok ⟨results.«matches».map toSearchMatch⟩)
  | .error e => ([⟨query.query_vector, 5, true⟩], .error ⟨500, e⟩)

/-- Names with a given value among the listed indexes, counted. Used to
state that exactly one remote index with the target name exists. -/
def countNamed (store : List StoreIndex) (name : String) : Nat :=
  store.countP (fun idx => idx.name == name)

theorem countNamed_append (s t : List StoreIndex) (name : String) :
    countNamed (s ++ t) name = countNamed s name + countNamed t name := by
  simp [countNamed, List.countP_append]

theorem mem_names_iff_countNamed_pos (store : List StoreIndex) (name : String) :
    name ∈ store.map (fun idx => idx.name) ↔ 0 < countNamed store name := by
  rw [countNamed, List.countP_pos_iff]
  constructor
  · intro h
    rcases List.mem_map.mp h with ⟨idx, hidx, hname⟩
    exact ⟨idx, hidx, by simp [hname]⟩
  · rintro ⟨idx, hidx, hname⟩
    exact List.mem_map.mpr ⟨idx, hidx, by simpa using hname⟩

/-- C1: the provisioner, given the listing of all indexes owned by the
account and a target name, issues exactly one creation request carrying the
given dimension, metric and region spec when no listed index has that name;
it issues no creation request when one does; and its output depends only on
the names in the listing, never on the listed indexes' configuration
(dimension, metric). -/
theorem C1_create_if_absent (existing : List StoreIndex) (name : String)
    (dim : Nat) (metric : String) (spec : ServerlessSpec) :
    (name ∉ existing.map (fun idx => idx.name) →
      createIfAbsent existing name dim metric spec = [⟨name, dim, metric, spec⟩]) ∧
    (name ∈ existing.map (fun idx => idx.name) →
      createIfAbsent existing name dim metric spec = []) ∧
    (∀ other : List StoreIndex,
      existing.map (fun idx => idx.name) = other.map (fun idx => idx.name) →
      createIfAbsent existing name dim metric spec =
        createIfAbsent other name dim metric spec) := by
  refine ⟨fun h => ?_, fun h => ?_, fun other h => ?_⟩
  · simp [createIfAbsent, h]
  · simp [createIfAbsent, h]
  · simp only [createIfAbsent]
    rw [h]

/-- C1 witness: on an empty listing the provisioner issues exactly the one
quickstart creation request. -/
theorem C1_create_if_absent_witness :
    createIfAbsent [] index_name quickstartDimension quickstartMetric quickstartSpec =
      [⟨index_name, quickstartDimension, quickstartMetric, quickstartSpec⟩] :=
  (C1_create_if_absent [] index_name quickstartDimension quickstartMetric
      quickstartSpec).1 (by simp)

/-- C2: on a store holding at most one index with the target name (remote
names are unique per account), running the provisioner twice in succession
with the same name, dimension and metric leaves exactly one remote index
with that name, and the second run issues no creation request. -/
theorem C2_provisioner_idempotent (store : List StoreIndex)
    (host host2 : String) (name : String) (dim : Nat) (metric : String)
    (spec : ServerlessSpec) (h : countNamed store name ≤ 1) :
    countNamed
        (runProvisioner (runProvisioner store host name dim metric spec).1
          host2 name dim metric spec).1 name = 1 ∧
    (runProvisioner (runProvisioner store host name dim metric spec).1
        host2 name dim metric spec).2 = [] := by
  by_cases hmem : name ∈ store.map (fun idx => idx.name)
  · have hpos : 0 < countNamed store name :=
      (mem_names_iff_countNamed_pos store name).mp hmem
    have hone : countNamed store name = 1 := le_antisymm h hpos
    simp [runProvisioner, createIfAbsent, hmem, hone]
  · have hzero : countNamed store name = 0 := by
      by_contra hne
      exact hmem ((mem_names_iff_countNamed_pos store name).mpr
        (Nat.pos_of_ne_zero hne))
    have hstep : (runProvisioner store host name dim metric spec).1 =
        store ++ [⟨name, host, dim, metric⟩] := by
      simp [runProvisioner, createIfAbsent, hmem, applyCreate]
    have hcount : countNamed (store ++ [⟨name, host, dim, metric⟩]) name = 1 := by
      rw [countNamed_append, hzero]
      simp [countNamed]
    have hmem2 : name ∈
        (store ++ [(⟨name, host, dim, metric⟩ : StoreIndex)]).map
          (fun idx => idx.name) := by
      simp
    rw [hstep]
    simp only [runProvisioner, createIfAbsent, hmem2, if_pos, List.foldl_nil]
    exact ⟨hcount, trivial⟩

/-- C2 witness: starting from an empty store, two quickstart runs leave
exactly one index named quickstart and the second run creates nothing. -/
theorem C2_provisioner_idempotent_witness :
    countNamed
        (runProvisioner
          (runProvisioner [] "h1" index_name quickstartDimension quickstartMetric
            quickstartSpec).1
          "h2" index_name quickstartDimension quickstartMetric quickstartSpec).1
      index_name = 1 ∧
    (runProvisioner
        (runProvisioner [] "h1" index_name quickstartDimension quickstartMetric
          quickstartSpec).1
        "h2" index_name quickstartDimension quickstartMetric quickstartSpec).2 = [] :=
  C2_provisioner_idempotent [] "h1" "h2" index_name quickstartDimension
    quickstartMetric quickstartSpec (by simp [countNamed])

theorem upsertPayload_length : upsertPayload.length = 3 := rfl

/-- C3: for each of the three handlers, an exception raised by the store's
client is caught at the handler boundary and re-signaled as a single
HTTPException with status 500 whose detail is exactly the original message;
the full handler result is pinned, so no retry happened (the call trace has
exactly one entry) and no partial result is returned. -/
theorem C3_error_translation (e : String) :
    status (.error e) = .error ⟨500, e⟩ ∧
    (∀ (α : Type) (body : α)
        (upsertFn : List VectorRecord → Except String Unit),
      upsertFn upsertPayload = .error e →
      upsert_vectors body upsertFn = ([upsertPayload], .error ⟨500, e⟩)) ∧
    (∀ (query : SearchQuery)
        (queryFn : List ℚ → Nat → Bool → Except String QueryResponse),
      queryFn query.query_vector 5 true = .error e →
      search query queryFn =
        ([⟨query.query_vector, 5, true⟩], .error ⟨500, e⟩)) := by
  refine ⟨rfl, fun α body upsertFn h => ?_, fun query queryFn h => ?_⟩
  · simp [upsert_vectors, h]
  · simp [search, h]

/-- C3 witness: a concrete raised message "boom" reaches each handler's
caller as a 500 HTTPException with detail "boom". -/
theorem C3_error_translation_witness :
    status (.error "boom") = .error ⟨500, "boom"⟩ ∧
    upsert_vectors "any body" (fun _ => .error "boom") =
      ([upsertPayload], .error ⟨500, "boom"⟩) ∧
    search ⟨[0.1, 0.2]⟩ (fun _ _ _ => .error "boom") =
      ([⟨[0.1, 0.2], 5, true⟩], .error ⟨500, "boom"⟩) :=
  ⟨(C3_error_translation "boom").1,
   (C3_error_translation "boom").2.1 String "any body" (fun _ => .error "boom") rfl,
   (C3_error_translation "boom").2.2 ⟨[0.1, 0.2]⟩ (fun _ _ _ => .error "boom") rfl⟩

/-- C4: when the store's query succeeds, the search handler returns exactly
the store's match sequence mapped elementwise to id/score/metadata, in the
store's order; the output score sequence equals the store's score sequence,
so whenever the store's scores are non-increasing, so are the returned
scores. -/
theorem C4_search_preserves_order (query : SearchQuery)
    (queryFn : List ℚ → Nat → Bool → Except String QueryResponse)
    (r : QueryResponse) (h : queryFn query.query_vector 5 true = .ok r) :
    (search query queryFn).2 = .ok ⟨r.«matches».map toSearchMatch⟩ ∧
    (r.«matches».map toSearchMatch).map (fun m => m.score) =
      r.«matches».map (fun m => m.score) ∧
    (List.Pairwise (fun a b => a ≥ b) (r.«matches».map (fun m => m.score)) →
      List.Pairwise (fun a b => a ≥ b)
        ((r.«matches».map toSearchMatch).map (fun m => m.score))) := by
  have hscores : (r.«matches».map toSearchMatch).map (fun m => m.score) =
      r.«matches».map (fun m => m.score) := by
    simp [List.map_map, Function.comp, toSearchMatch]
  refine ⟨?_, hscores, fun hsorted => ?_⟩
  · simp [search, h]
  · rwa [hscores]

/-- C4 witness: a concrete successful query with two matches in decreasing
score order is forwarded unchanged. -/
theorem C4_search_preserves_order_witness :
    (search ⟨[0.1, 0.2]⟩ (fun _ _ _ =>
        .ok ⟨[⟨"vec1", 0.9, [0.1, 0.2], []⟩, ⟨"vec2", 0.5, [0.2, 0.3], []⟩]⟩)).2 =
      .ok ⟨[⟨"vec1", 0.9, []⟩, ⟨"vec2", 0.5, []⟩]⟩ :=
  (C4_search_preserves_order ⟨[0.1, 0.2]⟩
    (fun _ _ _ =>
      .ok ⟨[⟨"vec1", 0.9, [0.1, 0.2], []⟩, ⟨"vec2", 0.5, [0.2, 0.3], []⟩]⟩)
    ⟨[⟨"vec1", 0.9, [0.1, 0.2], []⟩, ⟨"vec2", 0.5, [0.2, 0.3], []⟩]⟩ rfl).1

/-- C5: every call to the upsert handler issues exactly one batched write,
whose records are the fixed three-element payload with ids vec1, vec2,
vec3, whatever the caller's request body is; on success the returned count
is the number of records written, namely 3. -/
theorem C5_upsert_fixed_payload (α : Type) (body : α)
    (upsertFn : List VectorRecord → Except String Unit) :
    (upsert_vectors body upsertFn).1 = [upsertPayload] ∧
    upsertPayload.length = 3 ∧
    upsertPayload.map (fun v => v.id) = ["vec1", "vec2", "vec3"] ∧
    (upsertFn upsertPayload = .ok () →
      (upsert_vectors body upsertFn).2 =
        .ok ⟨"Vectors upserted successfully", 3⟩) := by
  refine ⟨?_, rfl, rfl, fun h => ?_⟩
  · unfold upsert_vectors
    cases upsertFn upsertPayload <;> rfl
  · simp [upsert_vectors, h, upsertPayload_length]

/-- C5 witness: with a store that accepts the write, the handler issued the
single fixed batch and reported count 3. -/
theorem C5_upsert_fixed_payload_witness :
    (upsert_vectors "any body" (fun _ => .ok ())).1 = [upsertPayload] ∧
    (upsert_vectors "any body" (fun _ => .ok ())).2 =
      .ok ⟨"Vectors upserted successfully", 3⟩ :=
  ⟨(C5_upsert_fixed_payload String "any body" (fun _ => .ok ())).1,
   (C5_upsert_fixed_payload String "any body" (fun _ => .ok ())).2.2.2 rfl⟩

/-- C6: when the store's query succeeds with zero matches, the search
handler returns the empty match sequence as a normal success response, not
an error. -/
theorem C6_empty_matches_success (query : SearchQuery)
    (queryFn : List ℚ → Nat → Bool → Except String QueryResponse)
    (h : queryFn query.query_vector 5 true = .ok ⟨[]⟩) :
    (search query queryFn).2 = .ok ⟨[]⟩ := by
  simp [search, h]

/-- C6 witness: a concrete query whose store result is empty yields the
empty success body. -/
theorem C6_empty_matches_success_witness :
    (search ⟨[0.1, 0.2]⟩ (fun _ _ _ => .ok ⟨[]⟩)).2 = .ok ⟨[]⟩ :=
  C6_empty_matches_success ⟨[0.1, 0.2]⟩ (fun _ _ _ => .ok ⟨[]⟩) rfl

/-- C7: when the listing succeeds the status handler maps each listed
remote index record to exactly name/host/dimension; in particular an
account with zero indexes yields the empty indexes list as a success, not
an error. -/
theorem C7_status_mapping :
    status (.ok []) = .ok ⟨[]⟩ ∧
    ∀ l : List StoreIndex,
      status (.ok l) =
        .ok ⟨l.map (fun idx => ⟨idx.name, idx.host, idx.dimension⟩)⟩ :=
  ⟨rfl, fun _ => rfl⟩

/-- C8: every call to the search handler delegates to the store's query
exactly once, with top_k the constant 5 and include_metadata true, whatever
the request and whatever the store answers. -/
theorem C8_search_call_shape (query : SearchQuery)
    (queryFn : List ℚ → Nat → Bool → Except String QueryResponse) :
    (search query queryFn).1 = [⟨query.query_vector, 5, true⟩] := by
  unfold search
  cases queryFn query.query_vector 5 true <;> rfl

/-- C9: the upsert handler's success response is independent of all
caller-supplied input: any two invocations whose store write succeeds
return the identical response, namely message "Vectors upserted
successfully" with count 3. -/
theorem C9_upsert_noninterference (α β : Type) (body1 : α) (body2 : β)
    (f1 f2 : List VectorRecord → Except String Unit)
    (h1 : f1 upsertPayload = .ok ()) (h2 : f2 upsertPayload = .ok ()) :
    (upsert_vectors body1 f1).2 = (upsert_vectors body2 f2).2 ∧
    (upsert_vectors body1 f1).2 =
      .ok ⟨"Vectors upserted successfully", 3⟩ := by
  constructor <;> simp [upsert_vectors, h1, h2, upsertPayload_length]

/-- C9 witness: two invocations with different bodies and different
(succeeding) store functions return the same concrete response. -/
theorem C9_upsert_noninterference_witness :
    (upsert_vectors "body A" (fun _ => .ok ())).2 =
      (upsert_vectors (37 : Nat) (fun _ => .ok ())).2 ∧
    (upsert_vectors "body A" (fun _ => .ok ())).2 =
      .ok ⟨"Vectors upserted successfully", 3⟩ :=
  C9_upsert_noninterference String Nat "body A" 37
    (fun _ => .ok ()) (fun _ => .ok ()) rfl rfl

/-- C10: each of the three hardcoded upsert records has a values sequence
of length exactly the dimension (2) that the provisioning script configures
for the quickstart index. -/
theorem C10_payload_dimension :
    upsertPayload.map (fun v => v.values.length) =
      [quickstartDimension, quickstartDimension, quickstartDimension] ∧
    quickstartDimension = 2 :=
  ⟨rfl, rfl⟩

end Pinecone
